import Mathlib

/-!
# Verification of the mpfshell session/command-dispatch engine

Shallow embedding of `src/mp/mpfshell.py` (class `MpFileShell` and `main`).

Modelling conventions:
* The external collaborator `MpFileExplorer` (the Device Session Handle) is
  represented by the structure `FE` (the handle the shell stores in `self.fe`)
  together with an environment `Env` of response functions describing how each
  handle call behaves (success/failure and returned data), mirroring the
  collaborator contract: `close` may raise `RemoteIOError`, the constructor
  may raise `PyboardError`, the filesystem calls may raise `IOError`,
  `pwd` is total and returns the session's current remote path.
* Every side effect of a command is recorded in an event trace (`Event`):
  each Session Handle call, each normal print, and each `__error` advisory.
  Colour framing added by `__error` around the message is presentation and is
  abstracted away; the advisory text itself is kept verbatim.
* A Python exception that a command does NOT catch is modelled by the `exn`
  field of the command's `Step` result: `some e` means the exception
  propagates out of the dispatcher (the `cmd.Cmd` loop has no handler, so the
  shell process dies).
-/

namespace Mpfshell

/-- The Device Session Handle (`MpFileExplorer` instance held in `self.fe`).
`path` is the session's current remote directory, returned by `pwd()`. -/
structure FE where
  port : String
  path : String
deriving Repr, DecidableEq

/-- Result of `fe.exec_raw_no_follow` + `fe.follow` in `do_exec`: normal
completion with the stderr tail `ret[-1]`, or an `IOError`, or a
`PyboardError` (whose displayed text `str(e[-1])` we carry directly). -/
inductive ExecRes where
  | ok (errTail : String)
  | ioErr (msg : String)
  | pyErr (msg : String)
deriving Repr, DecidableEq

/-- Behaviour of the external collaborator: for each Session Handle call,
whether it raises and what it returns.  `joinInterrupted` tells whether
`miniterm.join(True)` in `do_repl` is ended by a `KeyboardInterrupt`. -/
structure Env where
  closeFails : FE → Bool
  closeMsg : FE → String
  connectOk : String → Bool
  connectMsg : String → String
  initPath : String → String
  lsOk : FE → Bool
  lsFiles : FE → List (String × Char)
  lsMsg : FE → String
  cdOk : FE → String → Bool
  cdPath : FE → String → String
  cdMsg : FE → String → String
  mdOk : FE → String → Bool
  mdMsg : FE → String → String
  putOk : FE → String → String → Bool
  putMsg : FE → String → String → String
  getOk : FE → String → String → Bool
  getMsg : FE → String → String → String
  rmOk : FE → String → Bool
  rmMsg : FE → String → String
  catOk : FE → String → Bool
  catText : FE → String → String
  catMsg : FE → String → String
  execRes : FE → String → ExecRes
  joinInterrupted : Bool

/-- Observable effects of a command: Session Handle calls, prints and
`__error` advisories, and the interactive-bridge phases of `do_repl`. -/
inductive Event where
  | feClose (fe : FE)
  | feConnect (port : String)
  | feLs (fe : FE)
  | fePwd (fe : FE)
  | feCd (fe : FE) (dir : String)
  | feMd (fe : FE) (dir : String)
  | fePut (fe : FE) (lfile rfile : String)
  | feGet (fe : FE) (rfile lfile : String)
  | feRm (fe : FE) (path : String)
  | feCat (fe : FE) (path : String)
  | feExec (fe : FE) (stmt : String)
  | feTeardown (fe : FE)
  | feSetup (fe : FE)
  | bridgeStart
  | bridgeJoin
  | interrupted
  | bridgeExit
  | printOut (s : String)
  | errorOut (s : String)
deriving Repr, DecidableEq

/-- An uncaught Python exception escaping a command handler. -/
inductive Exn where
  | attributeError (msg : String)
deriving Repr, DecidableEq

/-- Shell state: `self.fe` (the optional session handle) and `self.prompt`. -/
structure Shell where
  fe : Option FE
  prompt : String
deriving Repr, DecidableEq

/-- Result of running one command: the new shell state, the trace of
side effects, and an uncaught exception if one propagates. -/
structure Step where
  state : Shell
  trace : List Event
  exn : Option Exn := none
deriving Repr, DecidableEq

/-! Colour constants (`colorama.Fore`) used verbatim in the prompt and
listing strings. -/

def foreBlue : String := "\x1b[34m"
def foreYellow : String := "\x1b[33m"
def foreRed : String := "\x1b[31m"
def foreCyan : String := "\x1b[36m"
def foreMagenta : String := "\x1b[35m"
def foreReset : String := "\x1b[39m"

/-- The prompt text built by `__set_prompt_path` from a remote path `p`
(`self.fe.pwd()` at the call site). -/
def promptFor (p : String) : String :=
  foreBlue ++ "mpfs [" ++ foreYellow ++ p ++ foreBlue ++ "]> " ++ foreReset

/-- The class-level initial prompt (path `/`). -/
def initPrompt : String := promptFor "/"

/-- The fixed advisory of `__is_open`. -/
def notConnectedMsg : String := "Not connected to device. Use 'open' first."

/-- `MpFileShell.__disconnect`: if a handle exists, call `fe.close()` and then
release the handle (`self.fe = None`).  Both statements sit inside the `try`,
so when `close` raises `RemoteIOError` the handler only reports the error and
the handle is NOT released. -/
def disconnect (env : Env) (s : Shell) : Shell × List Event :=
  match s.fe with
  | none => (s, [])
  | some fe =>
    if env.closeFails fe then
      (s, [.feClose fe, .errorOut (env.closeMsg fe)])
    else
      ({ s with fe := none }, [.feClose fe])

/-- `MpFileShell.__connect`: disconnect any previous session, then construct
`MpFileExplorer(port)`; a `PyboardError` from the constructor is caught and
reported. -/
def connect (env : Env) (port : String) (s : Shell) : Shell × List Event :=
  let s1 := (disconnect env s).1
  let ev1 := (disconnect env s).2
  if env.connectOk port then
    ({ s1 with fe := some { port := port, path := env.initPath port } },
      ev1 ++ [.feConnect port])
  else
    (s1, ev1 ++ [.feConnect port, .errorOut (env.connectMsg port)])

/-- `MpFileShell.do_open`: missing-argument check, then `__connect`. -/
def do_open (env : Env) (args : String) (s : Shell) : Step :=
  if args = "" then
    ⟨s, [.errorOut "Missing argument: <PORT>"], none⟩
  else
    ⟨(connect env args s).1, (connect env args s).2, none⟩

/-- `MpFileShell.do_close`: just `__disconnect` (the argument string is
ignored by the source). -/
def do_close (env : Env) (s : Shell) : Step :=
  ⟨(disconnect env s).1, (disconnect env s).2, none⟩

/-- `MpFileShell.do_pwd`: `print(self.fe.pwd())` with NO `__is_open` guard
and no exception handler; with `self.fe = None` the attribute access raises
an `AttributeError` that propagates out of the dispatcher. -/
def do_pwd (s : Shell) : Step :=
  match s.fe with
  | none =>
    ⟨s, [], some (.attributeError "NoneType object has no attribute pwd")⟩
  | some fe => ⟨s, [.fePwd fe, .printOut fe.path], none⟩

/-- Python `str.split(" ")` on the character list: split at EVERY single
space, keeping empty pieces (so the result is never empty).  This models the
`args.split(" ")` primitive used by `do_put` and `do_get`. -/
def splitSp : List Char → List (List Char)
  | [] => [[]]
  | c :: rest =>
    let r := splitSp rest
    if c = ' ' then [] :: r
    else (c :: r.headD []) :: r.tail

/-- Python `args.split(" ")` on strings. -/
def pySplitSpace (s : String) : List String :=
  (splitSp s.toList).map List.asString

/-- `MpFileShell.do_cd`: missing-argument check, connection guard, then
`fe.cd(args)` followed by `__set_prompt_path` (which calls `fe.pwd()`); an
`IOError` from the `try` block is reported and nothing else happens. -/
def do_cd (env : Env) (args : String) (s : Shell) : Step :=
  if args = "" then
    ⟨s, [.errorOut "Missing argument: <REMOTE DIR>"], none⟩
  else
    match s.fe with
    | none => ⟨s, [.errorOut notConnectedMsg], none⟩
    | some fe =>
      if env.cdOk fe args then
        let fe' : FE := { fe with path := env.cdPath fe args }
        ⟨{ fe := some fe', prompt := promptFor fe'.path },
          [.feCd fe args, .fePwd fe'], none⟩
      else
        ⟨s, [.feCd fe args, .errorOut (env.cdMsg fe args)], none⟩

/-- One line of `do_ls` output for a listing entry `(elem, type)`. -/
def lsLine (entry : String × Char) : String :=
  (if entry.2 = 'F' then foreCyan else foreMagenta) ++
    " [" ++ String.singleton entry.2 ++ "] " ++ entry.1 ++ foreReset

/-- `MpFileShell.do_ls`: connection guard, then `fe.ls(add_details=True)`,
a header using `fe.pwd()`, one line per entry and a final blank line; an
`IOError` is reported instead. -/
def do_ls (env : Env) (s : Shell) : Step :=
  match s.fe with
  | none => ⟨s, [.errorOut notConnectedMsg], none⟩
  | some fe =>
    if env.lsOk fe then
      ⟨s, [.feLs fe, .fePwd fe,
            .printOut ("\nRemote files in '" ++ fe.path ++ "':\n")] ++
          (env.lsFiles fe).map (fun e => .printOut (lsLine e)) ++
          [.printOut ""], none⟩
    else
      ⟨s, [.feLs fe, .errorOut (env.lsMsg fe)], none⟩

/-- `MpFileShell.do_md`: missing-argument check, connection guard, then
`fe.md(args)` with `IOError` reported. -/
def do_md (env : Env) (args : String) (s : Shell) : Step :=
  if args = "" then
    ⟨s, [.errorOut "Missing argument: <REMOTE DIR>"], none⟩
  else
    match s.fe with
    | none => ⟨s, [.errorOut notConnectedMsg], none⟩
    | some fe =>
      if env.mdOk fe args then ⟨s, [.feMd fe args], none⟩
      else ⟨s, [.feMd fe args, .errorOut (env.mdMsg fe args)], none⟩

/-- `MpFileShell.do_put`: missing-argument check, connection guard; then
`s_args = args.split(" ")`, the local name is `s_args[0]` and the remote
name is `s_args[1]` when present, else the local name; `fe.put` is called
with that pair and an `IOError` is reported. -/
def do_put (env : Env) (args : String) (s : Shell) : Step :=
  if args = "" then
    ⟨s, [.errorOut "Missing arguments: <LOCAL FILE> [<REMOTE FILE>]"], none⟩
  else
    match s.fe with
    | none => ⟨s, [.errorOut notConnectedMsg], none⟩
    | some fe =>
      let s_args := pySplitSpace args
      let lfile_name := s_args.headD ""
      let rfile_name := if 1 < s_args.length then s_args.getD 1 "" else lfile_name
      if env.putOk fe lfile_name rfile_name then
        ⟨s, [.fePut fe lfile_name rfile_name], none⟩
      else
        ⟨s, [.fePut fe lfile_name rfile_name,
              .errorOut (env.putMsg fe lfile_name rfile_name)], none⟩

/-- `MpFileShell.do_get`: symmetric to `do_put`: the remote name is
`s_args[0]`, the local name defaults to it when no second argument is
given. -/
def do_get (env : Env) (args : String) (s : Shell) : Step :=
  if args = "" then
    ⟨s, [.errorOut "Missing arguments: <REMOTE FILE> [<LOCAL FILE>]"], none⟩
  else
    match s.fe with
    | none => ⟨s, [.errorOut notConnectedMsg], none⟩
    | some fe =>
      let s_args := pySplitSpace args
      let rfile_name := s_args.headD ""
      let lfile_name := if 1 < s_args.length then s_args.getD 1 "" else rfile_name
      if env.getOk fe rfile_name lfile_name then
        ⟨s, [.feGet fe rfile_name lfile_name], none⟩
      else
        ⟨s, [.feGet fe rfile_name lfile_name,
              .errorOut (env.getMsg fe rfile_name lfile_name)], none⟩

/-- `MpFileShell.do_rm`: missing-argument check, connection guard, then
`fe.rm(args)` with `IOError` reported. -/
def do_rm (env : Env) (args : String) (s : Shell) : Step :=
  if args = "" then
    ⟨s, [.errorOut "Missing argument: <REMOTE FILE>"], none⟩
  else
    match s.fe with
    | none => ⟨s, [.errorOut notConnectedMsg], none⟩
    | some fe =>
      if env.rmOk fe args then ⟨s, [.feRm fe args], none⟩
      else ⟨s, [.feRm fe args, .errorOut (env.rmMsg fe args)], none⟩

/-- `MpFileShell.do_cat`: missing-argument check, connection guard, then
`print(fe.gets(args))` with `IOError` reported. -/
def do_cat (env : Env) (args : String) (s : Shell) : Step :=
  if args = "" then
    ⟨s, [.errorOut "Missing argument: <REMOTE FILE>"], none⟩
  else
    match s.fe with
    | none => ⟨s, [.errorOut notConnectedMsg], none⟩
    | some fe =>
      if env.catOk fe args then
        ⟨s, [.feCat fe args, .printOut (env.catText fe args)], none⟩
      else ⟨s, [.feCat fe args, .errorOut (env.catMsg fe args)], none⟩

/-- `MpFileShell.do_exec`: missing-argument check, connection guard, then
`fe.exec_raw_no_follow(args + "\n")` and `fe.follow` (folded into one
`feExec` event; the incremental stdout streaming is abstracted); a non-empty
stderr tail is reported with `__error`, and `IOError` / `PyboardError` are
caught and reported. -/
def do_exec (env : Env) (args : String) (s : Shell) : Step :=
  if args = "" then
    ⟨s, [.errorOut "Missing argument: <STATEMENT>"], none⟩
  else
    match s.fe with
    | none => ⟨s, [.errorOut notConnectedMsg], none⟩
    | some fe =>
      match env.execRes fe args with
      | .ok errTail =>
        if errTail = "" then ⟨s, [.feExec fe (args ++ "\n")], none⟩
        else ⟨s, [.feExec fe (args ++ "\n"), .errorOut errTail], none⟩
      | .ioErr m => ⟨s, [.feExec fe (args ++ "\n"), .errorOut m], none⟩
      | .pyErr m => ⟨s, [.feExec fe (args ++ "\n"), .errorOut m], none⟩

/-- The hint printed by `do_repl` before waiting on the bridge. -/
def replHint : String := "\n*** Exit REPL with Ctrl+] ***"

/-- `MpFileShell.do_repl`: connection guard, then in order: `fe.teardown()`,
`console.setup()` / `miniterm.start()` (the bridge takes over I/O), the exit
hint, `miniterm.join(True)` (the bridge wait, whose `KeyboardInterrupt` is
caught and ignored), `console.cleanup()` (the bridge exits), `fe.setup()`
and a final blank print. -/
def do_repl (env : Env) (s : Shell) : Step :=
  match s.fe with
  | none => ⟨s, [.errorOut notConnectedMsg], none⟩
  | some fe =>
    ⟨s, [.feTeardown fe, .bridgeStart, .printOut replHint, .bridgeJoin] ++
        (if env.joinInterrupted then [.interrupted] else []) ++
        [.bridgeExit, .feSetup fe, .printOut ""], none⟩

/-- Loop body of the `-c` (`--command`) batch loop of `main`: for one
`;`-piece `c`, strip it; when the result is non-empty and not `#`-prefixed,
call `mpfs.onecmd` on it and record it, else do nothing.  The dispatcher's
outcome is never consulted. -/
def batchStep {σ : Type} (onecmd : σ → String → σ)
    (acc : σ × List String) (c : String) : σ × List String :=
  let scmd := c.trim
  if 0 < scmd.length ∧ ¬ scmd.startsWith "#" then
    (onecmd acc.1 scmd, acc.2 ++ [scmd])
  else acc

/-- The `-c` (`--command`) batch loop of `main`, assembled from `batchStep`:
join the argument words with single spaces, split on `;`, fold `batchStep`
over the pieces starting from the initial dispatcher state and an empty
dispatch record. -/
def runBatch {σ : Type} (onecmd : σ → String → σ) (st : σ)
    (command : List String) : σ × List String :=
  ((" ".intercalate command).splitOn ";").foldl (batchStep onecmd) (st, [])

/-- The filter the batch loop applies to each `;`-piece: the stripped text
when it is non-empty and not `#`-prefixed, nothing otherwise. -/
def batchKeep (c : String) : Option String :=
  let scmd := c.trim
  if 0 < scmd.length ∧ ¬ scmd.startsWith "#" then some scmd else none

/-- The commands a `-c` (`--command`) batch feeds to the dispatcher, read off
the input alone: the stripped, non-empty, non-`#` pieces of the `;`-split,
in input order. -/
def batchFilter (command : List String) : List String :=
  ((" ".intercalate command).splitOn ";").filterMap batchKeep

/-! ## Concrete instances used by witnesses and counterexamples -/

/-- A sample connected session handle. -/
def feX : FE := { port := "ttyUSB0", path := "/" }

/-- An environment in which every Session Handle call succeeds. -/
def envOk : Env where
  closeFails := fun _ => false
  closeMsg := fun _ => "remote io error"
  connectOk := fun _ => true
  connectMsg := fun _ => "could not enter raw repl"
  initPath := fun _ => "/"
  lsOk := fun _ => true
  lsFiles := fun _ => [("boot.py", 'F'), ("lib", 'D')]
  lsMsg := fun _ => "io error"
  cdOk := fun _ _ => true
  cdPath := fun fe d => fe.path ++ d
  cdMsg := fun _ _ => "io error"
  mdOk := fun _ _ => true
  mdMsg := fun _ _ => "io error"
  putOk := fun _ _ _ => true
  putMsg := fun _ _ _ => "io error"
  getOk := fun _ _ _ => true
  getMsg := fun _ _ _ => "io error"
  rmOk := fun _ _ => true
  rmMsg := fun _ _ => "io error"
  catOk := fun _ _ => true
  catText := fun _ _ => "print(42)"
  catMsg := fun _ _ => "io error"
  execRes := fun _ _ => .ok ""
  joinInterrupted := false

/-- Like `envOk`, except `fe.close()` raises `RemoteIOError`. -/
def envCloseFails : Env := { envOk with closeFails := fun _ => true }

/-- Like `envOk`, except the `MpFileExplorer` constructor raises
`PyboardError`. -/
def envConnectFails : Env := { envOk with connectOk := fun _ => false }

/-- Like `envOk`, except `fe.close()` raises `RemoteIOError` AND the
`MpFileExplorer` constructor raises `PyboardError`. -/
def envReopenFails : Env :=
  { envOk with closeFails := fun _ => true, connectOk := fun _ => false }

/-- Like `envOk`, except `fe.ls()` raises `IOError`. -/
def envLsFails : Env := { envOk with lsOk := fun _ => false }

/-- Like `envOk`, except `fe.cd()` raises `IOError`. -/
def envCdFails : Env := { envOk with cdOk := fun _ _ => false }

/-- Like `envOk`, except remote execution raises `PyboardError`. -/
def envExecFails : Env := { envOk with execRes := fun _ _ => .pyErr "boom" }

/-- A shell that has never been connected. -/
def shellDisc : Shell := { fe := none, prompt := initPrompt }

/-- A shell holding the sample session. -/
def shellConn : Shell := { fe := some feX, prompt := initPrompt }

/-! ## Claim theorems -/

/-- C1: of the ten commands the claim lists, nine (ls, cd, md, put, get, rm,
cat, exec, repl) do, while disconnected, print exactly the fixed advisory
"Not connected to device. Use 'open' first.", make no Session Handle call
and change nothing — but `pwd` does not: `do_pwd` has no `__is_open` guard,
so `self.fe.pwd()` on `None` raises an uncaught `AttributeError` and prints
no advisory at all.  The claim is right about the intended design (the other
nine commands all implement it) and the code's unguarded `do_pwd` is the
slip. -/
theorem pwd_missing_connection_guard :
    do_ls envOk shellDisc = ⟨shellDisc, [.errorOut notConnectedMsg], none⟩ ∧
    do_cd envOk "lib" shellDisc = ⟨shellDisc, [.errorOut notConnectedMsg], none⟩ ∧
    do_md envOk "lib" shellDisc = ⟨shellDisc, [.errorOut notConnectedMsg], none⟩ ∧
    do_put envOk "a.txt" shellDisc = ⟨shellDisc, [.errorOut notConnectedMsg], none⟩ ∧
    do_get envOk "a.txt" shellDisc = ⟨shellDisc, [.errorOut notConnectedMsg], none⟩ ∧
    do_rm envOk "a.txt" shellDisc = ⟨shellDisc, [.errorOut notConnectedMsg], none⟩ ∧
    do_cat envOk "a.txt" shellDisc = ⟨shellDisc, [.errorOut notConnectedMsg], none⟩ ∧
    do_exec envOk "print(1)" shellDisc = ⟨shellDisc, [.errorOut notConnectedMsg], none⟩ ∧
    do_repl envOk shellDisc = ⟨shellDisc, [.errorOut notConnectedMsg], none⟩ ∧
    do_pwd shellDisc =
      ⟨shellDisc, [], some (.attributeError "NoneType object has no attribute pwd")⟩ :=
  ⟨rfl, rfl, rfl, rfl, rfl, rfl, rfl, rfl, rfl, rfl⟩

/-- C2: when `fe.close()` raises `RemoteIOError`, `do_close` reports the
failure but does NOT drop the session: `self.fe = None` sits after
`self.fe.close()` inside the same `try`, so the raise skips it and the shell
stays connected to the dead handle, contradicting the claimed (and clearly
intended) teardown-regardless policy. -/
theorem close_failure_keeps_session :
    do_close envCloseFails shellConn =
      ⟨shellConn, [.feClose feX, .errorOut "remote io error"], none⟩ ∧
    (do_close envCloseFails shellConn).state.fe = some feX :=
  ⟨rfl, rfl⟩

/-- C7: `do_ls` and `do_exec` convert device-layer failures into a printed
advisory and let nothing propagate (`exn = none`), as the claim says — but
`do_pwd` while disconnected raises an uncaught `AttributeError` that leaves
the dispatcher with no advisory printed, so the shell process dies on it.
The claim is right about the error policy (which every other handler
implements) and the unguarded, `try`-less `do_pwd` is the slip. -/
theorem pwd_error_escapes_dispatcher :
    (do_ls envLsFails shellConn).exn = none ∧
    (do_ls envLsFails shellConn).trace = [.feLs feX, .errorOut "io error"] ∧
    (do_exec envExecFails "foo()" shellConn).exn = none ∧
    (do_exec envExecFails "foo()" shellConn).trace =
      [.feExec feX "foo()\n", .errorOut "boom"] ∧
    (do_pwd shellDisc).exn =
      some (.attributeError "NoneType object has no attribute pwd") ∧
    (do_pwd shellDisc).trace = [] :=
  ⟨rfl, rfl, rfl, rfl, rfl, rfl⟩

/-- C9 counterexample: re-`open` on a session whose `close` raises
`RemoteIOError`, with the new connect failing with `PyboardError`, leaves
the shell still holding the OLD session handle — not `Disconnected` as the
claim states for every state with an existing session. -/
theorem reopen_failure_counterexample :
    (do_open envReopenFails "ttyUSB1" shellConn).state.fe = some feX ∧
    (do_open envReopenFails "ttyUSB1" shellConn).trace =
      [.feClose feX, .errorOut "remote io error", .feConnect "ttyUSB1",
        .errorOut "could not enter raw repl"] :=
  ⟨rfl, rfl⟩

/-- C9 amended: when the old session's `close` succeeds, re-`open` whose
connect fails with `PyboardError` does leave the shell `Disconnected`: the
old session was dropped before the connect attempt and is not restored. -/
theorem reopen_failure_leaves_disconnected (env : Env) (port : String)
    (s : Shell) (fe0 : FE) (h : s.fe = some fe0)
    (hclose : env.closeFails fe0 = false)
    (hconn : env.connectOk port = false) (hp : port ≠ "") :
    (do_open env port s).state.fe = none ∧
    (do_open env port s).trace =
      [.feClose fe0, .feConnect port, .errorOut (env.connectMsg port)] := by
  simp [do_open, hp, connect, disconnect, h, hclose, hconn]

/-- C9 amended, witness at a concrete input. -/
theorem reopen_failure_leaves_disconnected_witness :
    (do_open envConnectFails "ttyUSB1" shellConn).state.fe = none ∧
    (do_open envConnectFails "ttyUSB1" shellConn).trace =
      [.feClose feX, .feConnect "ttyUSB1",
        .errorOut (envConnectFails.connectMsg "ttyUSB1")] :=
  reopen_failure_leaves_disconnected envConnectFails "ttyUSB1" shellConn feX
    rfl rfl rfl (by decide)

/-- C10: `close` on a disconnected shell is a no-op (no print, no Session
Handle call, state unchanged), and `close` is idempotent on the shell state:
a second `close` ends in the same state a single one does. -/
theorem close_noop_idempotent (env : Env) (s : Shell) :
    (s.fe = none → do_close env s = ⟨s, [], none⟩) ∧
    (do_close env (do_close env s).state).state = (do_close env s).state := by
  constructor
  · intro h
    simp [do_close, disconnect, h]
  · match hfe : s.fe with
    | none => simp [do_close, disconnect, hfe]
    | some fe =>
      by_cases hc : env.closeFails fe
      · simp [do_close, disconnect, hfe, hc]
      · simp [do_close, disconnect, hfe, hc]

/-- C10 witness at a concrete input. -/
theorem close_noop_idempotent_witness :
    do_close envOk shellDisc = ⟨shellDisc, [], none⟩ ∧
    (do_close envOk (do_close envOk shellDisc).state).state =
      (do_close envOk shellDisc).state :=
  ⟨(close_noop_idempotent envOk shellDisc).1 rfl,
    (close_noop_idempotent envOk shellDisc).2⟩

/-- A protocol-suspend call (`fe.teardown()`). -/
def isSuspend : Event → Bool
  | .feTeardown _ => true
  | _ => false

/-- A protocol-resume call (`fe.setup()`). -/
def isResume : Event → Bool
  | .feSetup _ => true
  | _ => false

/-- C3: on a connected session, `do_repl` makes exactly one suspend call
(`fe.teardown`) and exactly one resume call (`fe.setup`); splitting the
trace at the bridge wait (`miniterm.join`), the suspend lies strictly before
the wait and the resume strictly after it — whether or not the wait ends in
a `KeyboardInterrupt` (`env.joinInterrupted` is arbitrary). -/
theorem repl_suspend_resume_paired (env : Env) (s : Shell) (fe : FE)
    (h : s.fe = some fe) :
    (do_repl env s).trace.countP (fun e => isSuspend e) = 1 ∧
    (do_repl env s).trace.countP (fun e => isResume e) = 1 ∧
    ∃ pre mid post, (do_repl env s).trace =
        pre ++ Event.bridgeJoin :: (mid ++ Event.bridgeExit :: post) ∧
      pre.head? = some (.feTeardown fe) ∧
      Event.bridgeStart ∈ pre ∧
      pre.countP (fun e => isSuspend e) = 1 ∧
      pre.countP (fun e => isResume e) = 0 ∧
      mid.countP (fun e => isSuspend e) = 0 ∧
      mid.countP (fun e => isResume e) = 0 ∧
      post.countP (fun e => isSuspend e) = 0 ∧
      post.countP (fun e => isResume e) = 1 := by
  by_cases hj : env.joinInterrupted
  · refine ⟨?_, ?_, [.feTeardown fe, .bridgeStart, .printOut replHint],
      [.interrupted], [.feSetup fe, .printOut ""],
      ?_, ?_, ?_, ?_, ?_, ?_, ?_, ?_, ?_⟩ <;>
      simp [do_repl, h, hj, isSuspend, isResume, List.countP_cons, List.countP_append]
  · refine ⟨?_, ?_, [.feTeardown fe, .bridgeStart, .printOut replHint],
      [], [.feSetup fe, .printOut ""],
      ?_, ?_, ?_, ?_, ?_, ?_, ?_, ?_, ?_⟩ <;>
      simp [do_repl, h, hj, isSuspend, isResume, List.countP_cons, List.countP_append]

/-- C3 witness at a concrete input (interrupt during the bridge wait). -/
theorem repl_suspend_resume_paired_witness :
    (do_repl { envOk with joinInterrupted := true } shellConn).trace.countP
      (fun e => isSuspend e) = 1 ∧
    (do_repl { envOk with joinInterrupted := true } shellConn).trace.countP
      (fun e => isResume e) = 1 ∧
    ∃ pre mid post,
      (do_repl { envOk with joinInterrupted := true } shellConn).trace =
        pre ++ Event.bridgeJoin :: (mid ++ Event.bridgeExit :: post) ∧
      pre.head? = some (.feTeardown feX) ∧
      Event.bridgeStart ∈ pre ∧
      pre.countP (fun e => isSuspend e) = 1 ∧
      pre.countP (fun e => isResume e) = 0 ∧
      mid.countP (fun e => isSuspend e) = 0 ∧
      mid.countP (fun e => isResume e) = 0 ∧
      post.countP (fun e => isSuspend e) = 0 ∧
      post.countP (fun e => isResume e) = 1 :=
  repl_suspend_resume_paired { envOk with joinInterrupted := true }
    shellConn feX rfl

/-- C4 counterexample: `open` on a connected shell whose `close` raises
`RemoteIOError` does attempt the new connect (last trace event), but the
state in which `__connect` makes that attempt — the result of the
`__disconnect` it runs first — still holds the OLD handle: the handle is not
released (nor the transport verifiably closed) before the connect call, so
the claim fails at this state. -/
theorem open_teardown_counterexample :
    (disconnect envCloseFails shellConn).1.fe = some feX ∧
    (do_open envCloseFails "ttyUSB1" shellConn).trace =
      [.feClose feX, .errorOut "remote io error", .feConnect "ttyUSB1"] ∧
    (do_open envCloseFails "ttyUSB1" shellConn).state.fe =
      some { port := "ttyUSB1", path := "/" } :=
  ⟨rfl, rfl, rfl⟩

/-- C4 amended: `open` with a port on a shell with an existing session
always calls the old session's `close` first, before the connect call
appears in the trace; and whenever that `close` succeeds, the old transport
is closed and the handle released (`fe = none`) in the state from which the
connect is attempted.  When the `close` raises `RemoteIOError`, the failure
is reported and the old handle simply remains until the connect overwrites
it. -/
theorem open_teardown_before_connect (env : Env) (port : String) (s : Shell)
    (fe0 : FE) (h : s.fe = some fe0) (hp : port ≠ "") :
    (∃ tl, (do_open env port s).trace = .feClose fe0 :: tl ∧
      Event.feConnect port ∈ tl) ∧
    (env.closeFails fe0 = false →
      disconnect env s = ({ s with fe := none }, [.feClose fe0])) := by
  constructor
  · by_cases hc : env.closeFails fe0 <;> by_cases hco : env.connectOk port <;>
      simp [do_open, hp, connect, disconnect, h, hc, hco]
  · intro hc
    simp [disconnect, h, hc]

/-- C4 amended, witness at a concrete input. -/
theorem open_teardown_before_connect_witness :
    (∃ tl, (do_open envOk "ttyUSB1" shellConn).trace = .feClose feX :: tl ∧
      Event.feConnect "ttyUSB1" ∈ tl) ∧
    (envOk.closeFails feX = false →
      disconnect envOk shellConn = ({ shellConn with fe := none }, [.feClose feX])) :=
  open_teardown_before_connect envOk "ttyUSB1" shellConn feX rfl (by decide)

/-- A space-free character list is returned whole by `splitSp`. -/
theorem splitSp_no_space (cs : List Char) (h : ' ' ∉ cs) : splitSp cs = [cs] := by
  induction cs with
  | nil => rfl
  | cons c rest ih =>
    have hc : ¬ c = ' ' := fun hc => h (by simp [hc])
    have hrest : ' ' ∉ rest := fun hm => h (List.mem_cons_of_mem _ hm)
    simp [splitSp, hc, ih hrest]

/-- `splitSp` cuts at the first space when the prefix is space-free. -/
theorem splitSp_space_append (a b : List Char) (h : ' ' ∉ a) :
    splitSp (a ++ ' ' :: b) = a :: splitSp b := by
  induction a with
  | nil => simp [splitSp]
  | cons c rest ih =>
    have hc : ¬ c = ' ' := fun hc => h (by simp [hc])
    have hrest : ' ' ∉ rest := fun hm => h (List.mem_cons_of_mem _ hm)
    simp [splitSp, hc, ih hrest]

/-- `List.asString` inverts the `data` projection. -/
theorem asString_data (s : String) : s.data.asString = s :=
  String.asString_toList s

/-- Python `a.split(" ")` of a space-free string is `[a]`. -/
theorem pySplitSpace_single (a : String) (h : ' ' ∉ a.toList) :
    pySplitSpace a = [a] := by
  show (splitSp a.data).map List.asString = [a]
  rw [splitSp_no_space a.data h]
  simp [asString_data]

/-- The character list of `a ++ " " ++ b`. -/
theorem toList_append_space (a b : String) :
    (a ++ " " ++ b).toList = a.toList ++ ' ' :: b.toList := by
  show ((a ++ " ") ++ b).data = a.data ++ ' ' :: b.data
  simp [String.data_append]

/-- Python `(a ++ " " ++ b).split(" ")` is `[a, b]` for space-free `a`, `b`. -/
theorem pySplitSpace_pair (a b : String) (ha : ' ' ∉ a.toList)
    (hb : ' ' ∉ b.toList) :
    pySplitSpace (a ++ " " ++ b) = [a, b] := by
  show (splitSp (a ++ " " ++ b).data).map List.asString = [a, b]
  have h1 : (a ++ " " ++ b).data = a.data ++ ' ' :: b.data := by
    simp [String.data_append]
  rw [h1, splitSp_space_append a.data b.data ha, splitSp_no_space b.data hb]
  simp [asString_data]

/-- A string whose character list has a space in the middle is non-empty. -/
theorem append_space_ne_empty (a b : String) : a ++ " " ++ b ≠ "" := by
  intro hcontra
  have h := congrArg String.toList hcontra
  rw [toList_append_space] at h
  simp [String.toList] at h

/-- C5: on a connected session, `put a` calls `fe.put(a, a)` and
`put a b` calls `fe.put(a, b)`; symmetrically `get a` calls `fe.get(a, a)`
and `get a b` calls `fe.get(a, b)` — the missing optional second argument
defaults to the first argument's value.  (`a` and `b` are whitespace-free
words, as the dispatcher's one-level space splitting requires.) -/
theorem put_get_optional_rename (env : Env) (s : Shell) (fe : FE)
    (a b : String) (h : s.fe = some fe) (ha : a ≠ "") (has : ' ' ∉ a.toList)
    (hbs : ' ' ∉ b.toList) :
    (do_put env a s).trace.head? = some (.fePut fe a a) ∧
    (do_put env (a ++ " " ++ b) s).trace.head? = some (.fePut fe a b) ∧
    (do_get env a s).trace.head? = some (.feGet fe a a) ∧
    (do_get env (a ++ " " ++ b) s).trace.head? = some (.feGet fe a b) := by
  have hne := append_space_ne_empty a b
  refine ⟨?_, ?_, ?_, ?_⟩
  · cases hpo : env.putOk fe a a <;>
      simp [do_put, ha, h, pySplitSpace_single a has, hpo]
  · cases hpo : env.putOk fe a b <;>
      simp [do_put, hne, h, pySplitSpace_pair a b has hbs, hpo]
  · cases hpo : env.getOk fe a a <;>
      simp [do_get, ha, h, pySplitSpace_single a has, hpo]
  · cases hpo : env.getOk fe a b <;>
      simp [do_get, hne, h, pySplitSpace_pair a b has hbs, hpo]

/-- C5 witness at concrete inputs. -/
theorem put_get_optional_rename_witness :
    (do_put envOk "a.txt" shellConn).trace.head? =
      some (.fePut feX "a.txt" "a.txt") ∧
    (do_put envOk ("a.txt" ++ " " ++ "b.txt") shellConn).trace.head? =
      some (.fePut feX "a.txt" "b.txt") ∧
    (do_get envOk "a.txt" shellConn).trace.head? =
      some (.feGet feX "a.txt" "a.txt") ∧
    (do_get envOk ("a.txt" ++ " " ++ "b.txt") shellConn).trace.head? =
      some (.feGet feX "a.txt" "b.txt") :=
  put_get_optional_rename envOk shellConn feX "a.txt" "b.txt" rfl
    (by decide) (by decide) (by decide)

/-- `batchStep` on a kept piece: dispatch and record. -/
theorem batchStep_pos {σ : Type} (onecmd : σ → String → σ)
    (acc : σ × List String) (c : String)
    (hc : 0 < c.trim.length ∧ ¬ c.trim.startsWith "#") :
    batchStep onecmd acc c = (onecmd acc.1 c.trim, acc.2 ++ [c.trim]) := by
  show (if 0 < c.trim.length ∧ ¬ c.trim.startsWith "#" then
    (onecmd acc.1 c.trim, acc.2 ++ [c.trim]) else acc) = _
  rw [if_pos hc]

/-- `batchStep` on a skipped piece: unchanged. -/
theorem batchStep_neg {σ : Type} (onecmd : σ → String → σ)
    (acc : σ × List String) (c : String)
    (hc : ¬ (0 < c.trim.length ∧ ¬ c.trim.startsWith "#")) :
    batchStep onecmd acc c = acc := by
  show (if 0 < c.trim.length ∧ ¬ c.trim.startsWith "#" then
    (onecmd acc.1 c.trim, acc.2 ++ [c.trim]) else acc) = _
  rw [if_neg hc]

/-- `batchKeep` on a kept piece. -/
theorem batchKeep_pos (c : String)
    (hc : 0 < c.trim.length ∧ ¬ c.trim.startsWith "#") :
    batchKeep c = some c.trim := by
  show (if 0 < c.trim.length ∧ ¬ c.trim.startsWith "#" then
    some c.trim else none) = _
  rw [if_pos hc]

/-- `batchKeep` on a skipped piece. -/
theorem batchKeep_neg (c : String)
    (hc : ¬ (0 < c.trim.length ∧ ¬ c.trim.startsWith "#")) :
    batchKeep c = none := by
  show (if 0 < c.trim.length ∧ ¬ c.trim.startsWith "#" then
    some c.trim else none) = _
  rw [if_neg hc]

/-- The dispatched-command list built by the batch fold, for any starting
accumulator: the accumulator extended with the stripped, non-empty, non-`#`
pieces, regardless of what the dispatcher does. -/
theorem runBatch_foldl_trace {σ : Type} (onecmd : σ → String → σ) :
    ∀ (l : List String) (st : σ) (acc : List String),
      (l.foldl (batchStep onecmd) (st, acc)).2 = acc ++ l.filterMap batchKeep := by
  intro l
  induction l with
  | nil => intro st acc; simp
  | cons c rest ih =>
    intro st acc
    by_cases hc : 0 < c.trim.length ∧ ¬ c.trim.startsWith "#"
    · rw [List.foldl_cons, batchStep_pos onecmd (st, acc) c hc, ih,
        List.filterMap_cons_some (batchKeep_pos c hc)]
      simp
    · rw [List.foldl_cons, batchStep_neg onecmd (st, acc) c hc, ih,
        List.filterMap_cons_none (batchKeep_neg c hc)]

/-- C6: the `-c` batch loop feeds to `onecmd`, in input order, exactly the
stripped, non-empty, non-`#`-prefixed pieces of the `;`-split of the joined
command words — and that list does not depend on the dispatcher (`onecmd`)
at all, so no command's failure can stop or alter the dispatch of the
subsequent commands (the source ignores `onecmd`'s result). -/
theorem batch_feeds_all_commands {σ τ : Type} (onecmd : σ → String → σ)
    (onecmd' : τ → String → τ) (st : σ) (st' : τ) (command : List String) :
    (runBatch onecmd st command).2 = batchFilter command ∧
    (runBatch onecmd st command).2 = (runBatch onecmd' st' command).2 := by
  have h1 := runBatch_foldl_trace onecmd
    ((" ".intercalate command).splitOn ";") st []
  have h2 := runBatch_foldl_trace onecmd'
    ((" ".intercalate command).splitOn ";") st' []
  simp only [List.nil_append] at h1 h2
  exact ⟨h1, h1.trans h2.symm⟩

/-- C8: on a connected session, a successful `cd` replaces the handle's
current remote path and recomputes the prompt from it (so the prompt
contains the new `pwd`); a failed `cd` reports the error and leaves both the
shell state (prompt included) unchanged. -/
theorem cd_recomputes_prompt (env : Env) (s : Shell) (fe : FE) (dir : String)
    (h : s.fe = some fe) (hd : dir ≠ "") :
    (env.cdOk fe dir = true →
      (do_cd env dir s).state.fe = some { fe with path := env.cdPath fe dir } ∧
      (do_cd env dir s).state.prompt = promptFor (env.cdPath fe dir) ∧
      ∃ x y, (do_cd env dir s).state.prompt = x ++ env.cdPath fe dir ++ y) ∧
    (env.cdOk fe dir = false →
      (do_cd env dir s).state = s ∧
      (do_cd env dir s).trace = [.feCd fe dir, .errorOut (env.cdMsg fe dir)]) := by
  constructor
  · intro hc
    refine ⟨?_, ?_, foreBlue ++ "mpfs [" ++ foreYellow,
      foreBlue ++ "]> " ++ foreReset, ?_⟩ <;>
      simp [do_cd, hd, h, hc, promptFor, String.append_assoc]
  · intro hc
    simp [do_cd, hd, h, hc]

/-- C8 witness at concrete inputs (a successful and a failed `cd`). -/
theorem cd_recomputes_prompt_witness :
    ((envOk.cdOk feX "lib" = true →
      (do_cd envOk "lib" shellConn).state.fe =
        some { feX with path := envOk.cdPath feX "lib" } ∧
      (do_cd envOk "lib" shellConn).state.prompt =
        promptFor (envOk.cdPath feX "lib") ∧
      ∃ x y, (do_cd envOk "lib" shellConn).state.prompt =
        x ++ envOk.cdPath feX "lib" ++ y) ∧
    (envOk.cdOk feX "lib" = false →
      (do_cd envOk "lib" shellConn).state = shellConn ∧
      (do_cd envOk "lib" shellConn).trace =
        [.feCd feX "lib", .errorOut (envOk.cdMsg feX "lib")])) ∧
    ((envCdFails.cdOk feX "lib" = true →
      (do_cd envCdFails "lib" shellConn).state.fe =
        some { feX with path := envCdFails.cdPath feX "lib" } ∧
      (do_cd envCdFails "lib" shellConn).state.prompt =
        promptFor (envCdFails.cdPath feX "lib") ∧
      ∃ x y, (do_cd envCdFails "lib" shellConn).state.prompt =
        x ++ envCdFails.cdPath feX "lib" ++ y) ∧
    (envCdFails.cdOk feX "lib" = false →
      (do_cd envCdFails "lib" shellConn).state = shellConn ∧
      (do_cd envCdFails "lib" shellConn).trace =
        [.feCd feX "lib", .errorOut (envCdFails.cdMsg feX "lib")])) :=
  ⟨cd_recomputes_prompt envOk shellConn feX "lib" rfl (by decide),
    cd_recomputes_prompt envCdFails shellConn feX "lib" rfl (by decide)⟩

end Mpfshell
